import Mathlib

/-!
Verification of the `instruments` repository (binary `lparp.rs`): a shallow
embedding of the tick scheduler, the Launchpad grid decoding, the scale
quantizer and the arpeggiator controller state machine, together with
theorems settling the specification claims about them.

Machine integers (`u8`, `usize`) are modelled as `Nat`; wherever the Rust
code can overflow, underflow or index out of bounds this is made explicit at
the point of use.  Fallible MIDI writes (`MidiRes = Result<(), pm::Error>`)
are modelled by an explicit success flag threaded through each handler.
-/

/-- Embedding of `Job<T>` from `lparp.rs`: `ct` is the elapsed tick counter,
`mt` the period in ticks, `msg` the payload tag. -/
structure Job (T : Type) where
  ct : Nat
  mt : Nat
  msg : T
  deriving DecidableEq

/-- Embedding of `Scheduler<T>`.  The wall-clock field `last_time : Instant`
is not representable in a pure model; the sleep computation at the end of
`Scheduler::update` is modelled separately by `sleepDelta`.  `tickDuration`
is kept in integer microseconds (the code stores a `Duration` built with
`Duration::from_micros`). -/
structure Scheduler (T : Type) where
  tickDuration : Nat
  jobs : List (Job T)
  queue : List T
  deriving DecidableEq

/-- One job's mutation inside the loop of `Scheduler::update`:
`job.ct += 1; if job.ct == job.mt { job.ct = 0; }`. -/
def Job.advance {T : Type} (j : Job T) : Job T :=
  if j.ct + 1 = j.mt then { j with ct := 0 } else { j with ct := j.ct + 1 }

/-- Whether the loop body of `Scheduler::update` pushes this job's payload
this tick: true exactly when the incremented counter reaches the period. -/
def Job.fires {T : Type} (j : Job T) : Bool :=
  j.ct + 1 == j.mt

/-- Embedding of `Scheduler::has_events`: `self.queue.len() > 0`. -/
def Scheduler.has_events {T : Type} (s : Scheduler T) : Bool :=
  s.queue.length > 0

/-- Embedding of `Scheduler::clear_queue`: `self.queue.clear()`. -/
def Scheduler.clear_queue {T : Type} (s : Scheduler T) : Scheduler T :=
  { s with queue := [] }

/-- Embedding of `Scheduler::interval`: pushes `Job { ct: 0, mt: tick_amt,
msg }` onto the job list. -/
def Scheduler.interval {T : Type} (s : Scheduler T) (tick_amt : Nat) (msg : T) :
    Scheduler T :=
  { s with jobs := s.jobs ++ [⟨0, tick_amt, msg⟩] }

/-- The job-advancing part of `Scheduler::update`: the `for job in &mut
self.jobs` loop increments every counter in order and, for each job whose
counter reaches its period, resets the counter and pushes the payload onto
the queue.  Since the loop visits jobs in list order, the pushed payloads
are exactly the firing jobs' payloads in job order. -/
def Scheduler.update {T : Type} (s : Scheduler T) : Scheduler T :=
  { s with
    jobs := s.jobs.map Job.advance,
    queue := s.queue ++ (s.jobs.filter Job.fires).map Job.msg }

/-- The sleep computed at the end of `Scheduler::update`:
`let delta = self.tick_duration - elapsed; thread::sleep(delta);`.
Rust `Duration` subtraction calls `checked_sub(..).expect(..)` and panics
when the subtrahend exceeds the minuend; the panic is modelled as `none`,
a normal completion sleeping for `d` microseconds as `some d`. -/
def sleepDelta (tick_duration elapsed : Nat) : Option Nat :=
  if elapsed ≤ tick_duration then some (tick_duration - elapsed) else none

/-- Model of Rust's saturating `as u64` cast applied to an `f64` value,
restricted to non-NaN rationals: negative values clamp to 0, values at or
above `2^64` clamp to `2^64 - 1`, and in between the value truncates toward
zero. -/
def f64_as_u64 (q : ℚ) : Nat :=
  if q < 0 then 0 else min q.floor.toNat (2 ^ 64 - 1)

/-- Embedding of `Scheduler::set_rate`:
`let ms = 60000000.0 / (bpm * num_ticks) as f64; self.tick_duration =
Duration::from_micros(ms as u64);`.  The `f64` quotient is modelled in `ℚ`;
this agrees with IEEE double arithmetic whenever the quotient is exactly
representable, which holds at every input the theorems below use.  The
`i32` product `bpm * num_ticks` is modelled as the mathematical product
(the inputs used stay far inside the signed 32-bit range, where the two
agree).  Division by zero: `ℚ` yields 0 where `f64` yields `+inf`
(cast: `2^64 - 1`); no theorem below evaluates at a zero product. -/
def Scheduler.set_rate {T : Type} (s : Scheduler T) (bpm num_ticks : Int) :
    Scheduler T :=
  { s with tickDuration := f64_as_u64 (60000000 / ((bpm * num_ticks : Int) : ℚ)) }

/-- MIDI status constant `MIDI: MidiVal = 0xB0` (176). -/
def MIDI : Nat := 0xB0

/-- MIDI status constant `NOTE: MidiVal = 0x90` (144). -/
def NOTE : Nat := 0x90

/-- Table `MAJOR_SCALE: [u8; 7] = [0, 2, 4, 5, 7, 9, 11]`. -/
def MAJOR_SCALE : List Nat := [0, 2, 4, 5, 7, 9, 11]

/-- Table `MINOR_SCALE: [u8; 7] = [0, 2, 3, 5, 7, 8, 10]`. -/
def MINOR_SCALE : List Nat := [0, 2, 3, 5, 7, 8, 10]

/-- The two heptatonic scales of `lparp.rs`. -/
inductive Scale where
  | Major
  | Minor
  deriving DecidableEq

/-- The scheduler payload tags of `lparp.rs`. -/
inductive Msg where
  | CheckInputs
  | UpdateState
  | FlushNotes
  | Quit
  deriving DecidableEq

/-- Embedding of `calc_note`: the match arms `(1..7, Scale::Major)` and
`(1..7, Scale::Minor)` use Rust exclusive range patterns, so they cover
notes 1 through 6 only; everything else (0, and 7 upward) returns `None`.
The in-range arm indexes the 7-entry table directly at `note`; `getD`'s
default is never reached since `note < 7`. -/
def calc_note (note : Nat) (scale : Scale) : Option Nat :=
  if 1 ≤ note ∧ note < 7 then
    match scale with
    | .Major => some (MAJOR_SCALE.getD note 0)
    | .Minor => some (MINOR_SCALE.getD note 0)
  else none

/-- Embedding of `find_lp_xy`: reduce ids ≥ 16 modulo 16, keep smaller ids
as they are, accept the result as a column when it is < 9 and pair it with
row `x / 16`.  All arithmetic is on `u8` values, which `Nat` models exactly
here (no subtraction or overflow occurs). -/
def find_lp_xy (x : Nat) : Option (Nat × Nat) :=
  let nx := if x ≥ 16 then x % 16 else x
  if nx < 9 then some (nx, x / 16) else none

/-- Embedding of `led_color`: `(0..=3, 0..=3) => 12 | red | (16 * green)`,
otherwise 127.  `|||` is bitwise or, as in the source. -/
def led_color (red green : Nat) : Nat :=
  if red ≤ 3 ∧ green ≤ 3 then 12 ||| red ||| (16 * green) else 127

/-- Embedding of `ArpCol`: the quantized degree `val` (0 = silent) and the
raw note id `note` of the button currently lit for the column. -/
structure ArpCol where
  val : Nat
  note : Nat
  deriving DecidableEq

/-- Constructor `ArpCol::new`. -/
def ArpCol.new : ArpCol := ⟨0, 0⟩

/-- Embedding of `BtnArr = [u8; 4]` as four named bytes, so that the
source's index assignments `btn[1] = …`, `btn[2] = …` become field
updates. -/
structure BtnArr where
  b0 : Nat
  b1 : Nat
  b2 : Nat
  b3 : Nat
  deriving DecidableEq

/-- The 4-byte message a `BtnArr` denotes when passed to `write_message`. -/
def BtnArr.toMsg (b : BtnArr) : List Nat :=
  [b.b0, b.b1, b.b2, b.b3]

/-- Embedding of `Tracker`. -/
structure Tracker where
  index : Nat
  btn : BtnArr
  deriving DecidableEq

/-- Predicate `Tracker::in_range`: whether the tracker index lies in the 8-column
window of buffer page `buffer_index`. -/
def Tracker.in_range (t : Tracker) (buffer_index : Nat) : Bool :=
  let bmin := buffer_index * 8
  bmin ≤ t.index && t.index ≤ bmin + 7

/-- Embedding of `Tracker::update`: increment the index, wrapping 32 to 0. -/
def Tracker.update (t : Tracker) : Tracker :=
  if t.index + 1 = 32 then { t with index := 0 } else { t with index := t.index + 1 }

/-- Embedding of `Tracker::move_right`: increment `btn[1]`, wrapping 120 to 112. -/
def Tracker.move_right (t : Tracker) : Tracker :=
  if t.btn.b1 + 1 = 120 then { t with btn := { t.btn with b1 := 112 } }
  else { t with btn := { t.btn with b1 := t.btn.b1 + 1 } }

/-- Which of the two PortMidi devices a message is written to. -/
inductive Dest where
  | midiOut
  | gridDev
  deriving DecidableEq

/-- The transport boundary: `oracle k` tells whether the k-th
`write_message` call of a run succeeds (models `pm::Error` faults), `k`
counts the write attempts made so far, and `out` records the successfully
sent messages with their destination device. -/
structure Wire where
  oracle : Nat → Bool
  k : Nat
  out : List (Dest × List Nat)

/-- A transport with no faults. -/
def allOk : Wire := ⟨fun _ => true, 0, []⟩

/-- A transport on which every write fails. -/
def allFail : Wire := ⟨fun _ => false, 0, []⟩

/-- One `output.write_message(msg)` call: consult the oracle, record the
message when it succeeds, and report success (`true`) or a fault
(`false`, the `Err` that `?` propagates). -/
def writeMsg (d : Dest) (msg : List Nat) (w : Wire) : Wire × Bool :=
  let ok := w.oracle w.k
  ({ w with k := w.k + 1, out := if ok then w.out ++ [(d, msg)] else w.out }, ok)

/-- One `Device::write` call (`device.rs`): performs `write_message` but
converts the result with `.is_ok()` and the callers discard it, so a fault
is swallowed and never propagated. -/
def deviceWrite (d : Dest) (msg : List Nat) (w : Wire) : Wire :=
  (writeMsg d msg w).1

/-- An incoming PortMidi event as read by `check_inputs`: status byte,
`data1` (note id) and `data2` (velocity). -/
structure Event where
  status : Nat
  data1 : Nat
  data2 : Nat
  deriving DecidableEq

/-- Embedding of the `Arp` struct's pure state.  The two `Device` fields
are replaced by the `Wire` transport threaded through the handlers; the
scheduler's timing fields are as in `Scheduler`. -/
structure Arp where
  running : Bool
  playing : Bool
  scheduler : Scheduler Msg
  index : Nat
  buffer_index : Nat
  buffer : List ArpCol
  buffer_btn : BtnArr
  pp_btn : BtnArr
  scale : Scale
  scale_btn : BtnArr
  octave : Nat
  octave_btn : BtnArr
  bpm : Nat
  tracker : Tracker
  deriving DecidableEq

/-- Constructor `Arp::new` (minus the device handles): the initial controller state. -/
def Arp.new : Arp :=
  { running := true
    playing := false
    scheduler := ⟨0, [], []⟩
    index := 0
    buffer_index := 0
    buffer := List.replicate 32 ArpCol.new
    buffer_btn := ⟨MIDI, 104, 127, 0⟩
    pp_btn := ⟨MIDI, 108, led_color 3 0, 0⟩
    scale := .Major
    scale_btn := ⟨MIDI, 110, led_color 1 3, 0⟩
    octave := 5
    octave_btn := ⟨NOTE, 72, 127, 0⟩
    bpm := 120
    tracker := ⟨0, ⟨NOTE, 112, 127, 0⟩⟩ }

/-- Every handler returns the propagated `MidiRes` (`true` = `Ok(())`,
`false` = an `Err` bubbled by `?`), the controller state as mutated up to
the point the handler returned, and the transport state.  This mirrors
`fn … (&mut self) -> MidiRes`: mutations made before a failing `?` are kept. -/
abbrev HandlerResult := Bool × Arp × Wire

/-- Embedding of `Arp::quit`: set `running` to false (the `println!` is I/O-free on the
MIDI transport). -/
def Arp.quit (a : Arp) (w : Wire) : HandlerResult :=
  (true, { a with running := false }, w)

/-- Embedding of `Arp::play`: when not already playing, set `playing`, issue the
error-swallowing `Device::write(176, 108, 0, 0)`, move the play/pause
button to 109 with a green color, and send it (fallibly). -/
def Arp.play (a : Arp) (w : Wire) : HandlerResult :=
  if !a.playing then
    let a1 : Arp := { a with playing := true }
    let w1 := deviceWrite .gridDev [176, 108, 0, 0] w
    let a2 : Arp := { a1 with pp_btn := { a1.pp_btn with b1 := 109, b2 := led_color 0 3 } }
    let r := writeMsg .gridDev a2.pp_btn.toMsg w1
    (r.2, a2, r.1)
  else (true, a, w)

/-- Embedding of `Arp::pause`: inverse of `play`. -/
def Arp.pause (a : Arp) (w : Wire) : HandlerResult :=
  if a.playing then
    let a1 : Arp := { a with playing := false }
    let w1 := deviceWrite .gridDev [176, 109, 0, 0] w
    let a2 : Arp := { a1 with pp_btn := { a1.pp_btn with b1 := 108, b2 := led_color 3 0 } }
    let r := writeMsg .gridDev a2.pp_btn.toMsg w1
    (r.2, a2, r.1)
  else (true, a, w)

/-- Embedding of `Arp::invert_scale`: toggle the scale, update the scale button color,
then send the scale button (fallibly). -/
def Arp.invert_scale (a : Arp) (w : Wire) : HandlerResult :=
  let a1 : Arp :=
    match a.scale with
    | .Major => { a with scale := .Minor, scale_btn := { a.scale_btn with b2 := led_color 3 1 } }
    | .Minor => { a with scale := .Major, scale_btn := { a.scale_btn with b2 := led_color 1 3 } }
  let r := writeMsg .gridDev a1.scale_btn.toMsg w
  (r.2, a1, r.1)

/-- Embedding of `Arp::clear_board`: a single fallible write of `[MIDI, 0, 0, 0]`. -/
def Arp.clear_board (a : Arp) (w : Wire) : HandlerResult :=
  let r := writeMsg .gridDev [MIDI, 0, 0, 0] w
  (r.2, a, r.1)

/-- The LED-on messages of `render_ui`'s cell loop (`for c in 0..8`): for
each visible column with a nonzero value, `[0x90, col.note, 127, 0]`.
The out-of-bounds default of `getD` is never reached when the buffer has
its 32 elements and `buffer_index ≤ 3`. -/
def Arp.cellMsgs (a : Arp) : List (List Nat) :=
  (List.range 8).filterMap fun c =>
    let col := a.buffer.getD (a.buffer_index * 8 + c) ArpCol.new
    if col.val > 0 then some [0x90, col.note, 127, 0] else none

/-- Write a list of messages in order, aborting at the first fault. -/
def writeSeq (d : Dest) : List (List Nat) → Wire → Wire × Bool
  | [], w => (w, true)
  | m :: rest, w =>
    let r := writeMsg d m w
    if r.2 then writeSeq d rest r.1 else r

/-- Embedding of `Arp::render_ui`: clear the board, redraw the four persistent buttons,
the tracker when visible, and every nonzero visible cell; each write can
fault and aborts the rest. -/
def Arp.render_ui (a : Arp) (w : Wire) : HandlerResult :=
  let r0 := a.clear_board w
  if !r0.1 then (false, a, r0.2.2) else
  let r1 := writeMsg .gridDev a.buffer_btn.toMsg r0.2.2
  if !r1.2 then (false, a, r1.1) else
  let r2 := writeMsg .gridDev a.pp_btn.toMsg r1.1
  if !r2.2 then (false, a, r2.1) else
  let r3 := writeMsg .gridDev a.scale_btn.toMsg r2.1
  if !r3.2 then (false, a, r3.1) else
  let r4 := writeMsg .gridDev a.octave_btn.toMsg r3.1
  if !r4.2 then (false, a, r4.1) else
  let r5 :=
    if a.tracker.in_range a.buffer_index then writeMsg .gridDev a.tracker.btn.toMsg r4.1
    else (r4.1, true)
  if !r5.2 then (false, a, r5.1) else
  let r6 := writeSeq .gridDev a.cellMsgs r5.1
  (r6.2, a, r6.1)

/-- Embedding of `Arp::top_row_dispatch`: ids below 104 are ignored; otherwise dispatch
on `note - 104`: 0–3 selects a page (re-rendering only when it changes),
4 pauses, 5 plays, 6 toggles the scale, 7 quits, larger offsets are
ignored. -/
def Arp.top_row_dispatch (a : Arp) (note : Nat) (w : Wire) : HandlerResult :=
  if note < 104 then (true, a, w)
  else
    let idx := note - 104
    if idx ≤ 3 then
      if idx ≠ a.buffer_index then
        let a1 : Arp := { a with buffer_index := idx, buffer_btn := { a.buffer_btn with b1 := note } }
        a1.render_ui w
      else (true, a, w)
    else if idx = 4 then a.pause w
    else if idx = 5 then a.play w
    else if idx = 6 then a.invert_scale w
    else if idx = 7 then a.quit w
    else (true, a, w)

/-- Embedding of `Arp::grid_button_dispatch`.  The octave strip (column 8) turns the old
octave LED off, stores `7 - y` as the octave and the note id in the octave
button, then lights it.  Other columns address pattern cell
`buffer_index*8 + x`; when the decoded value `7 - y` differs from the
stored one, the old LED is turned off (if the old value was nonzero), the
new LED turned on (if the new value is nonzero), and only then are
`column.val`/`column.note` assigned — modelled by `List.set` of the pair.
`7 - y` is `Nat` truncated subtraction; in Rust it is `u8` subtraction,
which panics when `y > 7` — the bounds theorem for the grid handler shows
`y ≤ 7` for every note id ≤ 127, where the two agree.  `getD`/`set` out of
bounds are never reached for in-range ids with `buffer_index ≤ 3` and the
32-entry buffer (Rust would panic there). -/
def Arp.grid_button_dispatch (a : Arp) (note : Nat) (w : Wire) : HandlerResult :=
  match find_lp_xy note with
  | none => (true, a, w)
  | some (x, y) =>
    if x = 8 then
      let r1 := writeMsg .gridDev [NOTE, a.octave_btn.b1, 0, 0] w
      if !r1.2 then (false, a, r1.1) else
      let a1 : Arp := { a with octave := 7 - y, octave_btn := { a.octave_btn with b1 := note } }
      let r2 := writeMsg .gridDev a1.octave_btn.toMsg r1.1
      (r2.2, a1, r2.1)
    else
      let offset := a.buffer_index * 8 + x
      let new_val := 7 - y
      let column := a.buffer.getD offset ArpCol.new
      if column.val ≠ new_val then
        let r1 :=
          if column.val ≠ 0 then writeMsg .gridDev [NOTE, column.note, 0, 0] w
          else (w, true)
        if !r1.2 then (false, a, r1.1) else
        let r2 :=
          if new_val ≠ 0 then writeMsg .gridDev [NOTE, note, 127, 0] r1.1
          else (r1.1, true)
        if !r2.2 then (false, a, r2.1) else
        (true, { a with buffer := a.buffer.set offset ⟨new_val, note⟩ }, r2.1)
      else (true, a, w)

/-- Embedding of `Arp::check_inputs`' event loop.  The incoming batch (the `read_n(1024)`
result) is an explicit argument.  Mirrors the source exactly: a zero
velocity executes `return Ok(());`, which ends the whole loop, not just the
current event; otherwise status 176 goes to the top row, 144 to the grid,
and anything else is skipped. -/
def Arp.check_inputs (a : Arp) (evts : List Event) (w : Wire) : HandlerResult :=
  match evts with
  | [] => (true, a, w)
  | e :: rest =>
    if e.data2 = 0 then (true, a, w)
    else if e.status = MIDI then
      let r := a.top_row_dispatch e.data1 w
      if r.1 then r.2.1.check_inputs rest r.2.2 else r
    else if e.status = NOTE then
      let r := a.grid_button_dispatch e.data1 w
      if r.1 then r.2.1.check_inputs rest r.2.2 else r
    else a.check_inputs rest w

/-- Embedding of `Arp::update_state`: bump the playhead (mod 32) when playing, turn the
tracker's previous LED off, move the tracker, and light it again when it is
on the visible page. -/
def Arp.update_state (a : Arp) (w : Wire) : HandlerResult :=
  let a1 : Arp :=
    if a.playing then
      { a with index := if a.index + 1 = 32 then 0 else a.index + 1 }
    else a
  let r1 := writeMsg .gridDev [NOTE, a1.tracker.btn.b1, 0, 0] w
  if !r1.2 then (false, a1, r1.1) else
  let a2 : Arp := { a1 with tracker := a1.tracker.update.move_right }
  let r2 :=
    if a2.tracker.in_range a2.buffer_index then writeMsg .gridDev a2.tracker.btn.toMsg r1.1
    else (r1.1, true)
  (r2.2, a2, r2.1)

/-- Embedding of `Arp::flush_notes`: read the pattern column at the playhead; when its
value is nonzero and quantizes to a note, send
`[NOTE, base + octave*12, 127, 1]` on the note output. -/
def Arp.flush_notes (a : Arp) (w : Wire) : HandlerResult :=
  let col := a.buffer.getD a.index ArpCol.new
  if col.val > 0 then
    match calc_note col.val a.scale with
    | some base_note =>
      let r := writeMsg .midiOut [NOTE, base_note + a.octave * 12, 127, 1] w
      (r.2, a, r.1)
    | none => (true, a, w)
  else (true, a, w)

/-- The drain loop of `Arp::update` (`while i < queue.len()`): process each
queued tag in order, gating `UpdateState` and `FlushNotes` on `playing`;
a handler fault aborts the loop.  No handler pushes to the scheduler
queue, so iterating over the captured list coincides with the source's
index-based loop. -/
def Arp.drain (a : Arp) (q : List Msg) (evts : List Event) (w : Wire) : HandlerResult :=
  match q with
  | [] => (true, a, w)
  | m :: rest =>
    let r : HandlerResult :=
      match m, a.playing with
      | .Quit, _ => a.quit w
      | .CheckInputs, _ => a.check_inputs evts w
      | .UpdateState, true => a.update_state w
      | .FlushNotes, true => a.flush_notes w
      | _, _ => (true, a, w)
    if r.1 then r.2.1.drain rest evts r.2.2 else r

/-- Embedding of `Arp::update`: when the queue holds events, drain it and then clear the
queue; a fault propagates before the queue is cleared. -/
def Arp.update (a : Arp) (evts : List Event) (w : Wire) : HandlerResult :=
  if a.scheduler.has_events then
    let r := a.drain a.scheduler.queue evts w
    if r.1 then (true, { r.2.1 with scheduler := r.2.1.scheduler.clear_queue }, r.2.2)
    else r
  else (true, a, w)

/-- The concrete controller state used by the C6 counterexample: a fresh
controller whose pattern column 0 holds degree 3 set from note id 5. -/
def arpC6 : Arp :=
  { Arp.new with buffer := ⟨3, 5⟩ :: List.replicate 31 ArpCol.new }

/-- The concrete controller state used by the C9 witness: a fresh paused
controller whose due queue holds several play-gated tags. -/
def arpC9 : Arp :=
  { Arp.new with
    scheduler := ⟨0, [], [Msg.FlushNotes, Msg.UpdateState, Msg.FlushNotes]⟩ }

/- ### Scheduler lemmas -/

/-- A single fresh job of period `P` advances its counter by one per tick
and fires nothing while the counter stays below `P`. -/
lemma scheduler_single_job_iterate {T : Type} (td P : Nat) (m : T) :
    ∀ k, k < P →
      Scheduler.update^[k] ⟨td, [⟨0, P, m⟩], []⟩ = ⟨td, [⟨k, P, m⟩], []⟩ := by
  intro k
  induction k with
  | zero => intro _; rfl
  | succ n ih =>
    intro h
    have hn : n < P := Nat.lt_of_succ_lt h
    rw [Function.iterate_succ_apply', ih hn]
    have hne : ¬ n + 1 = P := Nat.ne_of_lt h
    simp [Scheduler.update, Job.advance, Job.fires, hne]

/-- Draining a due queue that holds only play-gated tags while paused hits
the wildcard arm of the dispatch match for every entry: state and transport
pass through untouched. -/
lemma drain_paused_noop (q : List Msg) :
    ∀ (a : Arp) (evts : List Event) (w : Wire),
      a.playing = false →
      (∀ m ∈ q, m = Msg.FlushNotes ∨ m = Msg.UpdateState) →
      a.drain q evts w = (true, a, w) := by
  induction q with
  | nil => intro a evts w _ _; rfl
  | cons m rest ih =>
    intro a evts w hp hq
    have hm := hq m (List.mem_cons_self m rest)
    have hrest : ∀ x ∈ rest, x = Msg.FlushNotes ∨ x = Msg.UpdateState :=
      fun x hx => hq x (List.mem_cons_of_mem m hx)
    rcases hm with h | h <;> subst h <;>
      simp [Arp.drain, hp, ih a evts w hp hrest]

/- ### Claim theorems -/

/-- C1 counterexample.  The claim says that when the elapsed wall time
exceeds `tick_duration`, `tick()` performs no sleep and completes normally
(`max(0, tick_duration − elapsed)`, here `some 0`).  At `tick_duration = 0`
microseconds and `elapsed = 1`, the `Duration` subtraction in
`Scheduler::update` panics instead (modelled as `none`). -/
theorem late_tick_subtraction_faults :
    sleepDelta 0 1 ≠ some 0 ∧ sleepDelta 0 1 = none := by
  decide

/-- C1 (amended): `tick()` sleeps for `tick_duration − elapsed` when the
elapsed wall time is at most `tick_duration`, and when it exceeds
`tick_duration` the `Duration` subtraction panics, so `tick()` faults
rather than skipping the sleep. -/
theorem tick_sleep_behind_faults (td e : Nat) (h : td < e) :
    sleepDelta td e = none ∧ sleepDelta e td = some (e - td) := by
  constructor
  · simp [sleepDelta, Nat.not_le.mpr h]
  · simp [sleepDelta, Nat.le_of_lt h]

/-- Witness for `tick_sleep_behind_faults` at `tick_duration = 3`,
`elapsed = 5` (and the swapped in-time pair `5`, `3`). -/
theorem tick_sleep_behind_faults_witness :
    3 < 5 ∧ (sleepDelta 3 5 = none ∧ sleepDelta 5 3 = some 2) :=
  ⟨by decide, tick_sleep_behind_faults 3 5 (by decide)⟩

/-- C2: evaluation of `find_lp_xy` at the two ids named by the claim.
`find_lp_xy 50 = some (2, 3)` as the claim says, but `find_lp_xy 200`
is `some (8, 12)`, not out of range: `200 % 16 = 8` passes the `< 9` check
and the row `200 / 16 = 12` is never validated — contradicting both the
claim and the function's own doc comment (`find_lp_xy(200) -> None`). -/
theorem find_lp_xy_doc_violated :
    find_lp_xy 50 = some (2, 3) ∧ find_lp_xy 200 = some (8, 12) := by
  decide

/-- C3 counterexample.  The claim says degree 4 under Major quantizes to
semitone offset 5; the code indexes `MAJOR_SCALE` directly at 4 and
returns 7. -/
theorem calc_note_degree4_not_5 :
    calc_note 4 Scale.Major ≠ some 5 ∧ calc_note 4 Scale.Major = some 7 := by
  decide

/-- C3 (amended): degree 4 under Major quantizes to semitone offset 7 (the
table is indexed directly by the degree), and for both scales degrees 0
and 7 produce no note. -/
theorem calc_note_amended :
    calc_note 4 Scale.Major = some 7 ∧
    calc_note 0 Scale.Major = none ∧ calc_note 0 Scale.Minor = none ∧
    calc_note 7 Scale.Major = none ∧ calc_note 7 Scale.Minor = none := by
  decide

/-- C4: evaluation of `check_inputs` at the failing batch.  A batch holding
a velocity-0 grid event followed by a velocity-127 press of the quit button
(note 111) leaves `running` true: the `return Ok(())` taken on the
velocity-0 event abandons the whole batch, so the quit press is never
dispatched.  The same press alone sets `running` to false — contradicting
the claim that events after a velocity-0 event are still processed. -/
theorem vel_zero_event_drops_rest_of_batch :
    (Arp.new.check_inputs [⟨NOTE, 0, 0⟩, ⟨MIDI, 111, 127⟩] allOk).2.1.running = true ∧
    (Arp.new.check_inputs [⟨MIDI, 111, 127⟩] allOk).2.1.running = false := by
  decide

/-- C5: evaluation of `set_rate` at the failing input.  `set_rate(-1, 1)`
is not rejected: the negative quotient saturates to 0 in the `as u64`
cast and the scheduler silently gets a zero tick duration.  For contrast,
`set_rate(120, 64)` (the rate `main` configures) yields 7812 µs. -/
theorem set_rate_accepts_nonsense :
    ((⟨0, [], []⟩ : Scheduler Msg).set_rate (-1) 1).tickDuration = 0 ∧
    ((⟨0, [], []⟩ : Scheduler Msg).set_rate 120 64).tickDuration = 7812 := by
  constructor
  · norm_num [Scheduler.set_rate, f64_as_u64]
  · have hq : (60000000 / ((120 * 64 : Int) : ℚ)) = 15625 / 2 := by norm_num
    have h1 : ((15625 : ℚ) / 2) = ((15625 : ℤ) : ℚ) / ((2 : ℕ) : ℚ) := by norm_num
    have hf : ((15625 : ℚ) / 2).floor = 7812 := by
      rw [Rat.floor_def', ← Rat.floor_def, h1, Rat.floor_intCast_div_natCast]
      decide
    simp only [Scheduler.set_rate, f64_as_u64, hq, hf]
    norm_num
    rfl

/-- C6 counterexample.  In the pattern-cell branch of
`grid_button_dispatch` the column mutation is sequenced after the LED
writes, so on a transport where the first LED write fails the handler
aborts with the column untouched, while the successful run stores the new
degree: the aborted run's state differs from the mutations-applied state
the claim promises. -/
theorem grid_write_failure_loses_mutation :
    (arpC6.grid_button_dispatch 0 allFail).1 = false ∧
    (arpC6.grid_button_dispatch 0 allFail).2.1
      ≠ (arpC6.grid_button_dispatch 0 allOk).2.1 := by
  decide

/-- C6 (amended): in `play`, `pause` and `invert_scale` every state
mutation precedes the only fallible LED write, so the handler's resulting
state never depends on transport faults; in `grid_button_dispatch` the
column mutation follows the LED writes, so a write fault aborts the
handler with the pattern buffer exactly as it was (the `(val, note)` pair
is written atomically or not at all). -/
theorem handler_mutation_ordering (a : Arp) (w : Wire) (note : Nat) :
    (a.play w).2.1 = (a.play allOk).2.1 ∧
    (a.pause w).2.1 = (a.pause allOk).2.1 ∧
    (a.invert_scale w).2.1 = (a.invert_scale allOk).2.1 ∧
    ((a.grid_button_dispatch note w).1 = false →
      (a.grid_button_dispatch note w).2.1.buffer = a.buffer) := by
  refine ⟨?_, ?_, ?_, ?_⟩
  · by_cases hp : a.playing <;> simp [Arp.play, hp]
  · by_cases hp : a.playing <;> simp [Arp.pause, hp]
  · cases hs : a.scale <;> simp [Arp.invert_scale, hs]
  · intro hfail
    have hgrid : (a.grid_button_dispatch note w).1 = true ∨
        (a.grid_button_dispatch note w).2.1.buffer = a.buffer := by
      unfold Arp.grid_button_dispatch
      cases hxy : find_lp_xy note with
      | none => left; rfl
      | some p =>
        obtain ⟨x, y⟩ := p
        dsimp only
        split_ifs <;> first | (right; rfl) | (left; rfl)
    rcases hgrid with h | h
    · rw [hfail] at h
      exact absurd h (by simp)
    · exact h

/-- Witness for `handler_mutation_ordering` at the concrete state `arpC6`
with an all-faulting transport, discharging the failure hypothesis of the
grid conjunct. -/
theorem handler_mutation_ordering_witness :
    (arpC6.play allFail).2.1 = (arpC6.play allOk).2.1 ∧
    (arpC6.grid_button_dispatch 0 allFail).2.1.buffer = arpC6.buffer :=
  ⟨(handler_mutation_ordering arpC6 allFail 0).1,
   (handler_mutation_ordering arpC6 allFail 0).2.2.2 (by decide)⟩

/-- C9: while `playing` is false, draining a due queue that holds only
`FlushNotes`/`UpdateState` tags changes nothing but the queue itself and
writes no outbound message at all (the transport comes back untouched), no
matter how many such tags accumulated. -/
theorem paused_drain_is_silent (a : Arp) (evts : List Event) (w : Wire)
    (hp : a.playing = false)
    (hq : ∀ m ∈ a.scheduler.queue, m = Msg.FlushNotes ∨ m = Msg.UpdateState) :
    a.update evts w = (true, { a with scheduler := a.scheduler.clear_queue }, w) := by
  unfold Arp.update
  by_cases h : a.scheduler.has_events
  · simp [h, drain_paused_noop a.scheduler.queue a evts w hp hq]
  · have hqe : a.scheduler.queue = [] := by
      unfold Scheduler.has_events at h
      simpa using h
    have hcq : a.scheduler.clear_queue = a.scheduler := by
      unfold Scheduler.clear_queue
      cases hsch : a.scheduler
      simp_all
    simp [h, hcq]

/-- Witness for `paused_drain_is_silent` at the paused state `arpC9` whose
queue is `[FlushNotes, UpdateState, FlushNotes]`. -/
theorem paused_drain_is_silent_witness :
    arpC9.playing = false ∧
    arpC9.update [] allOk
      = (true, { arpC9 with scheduler := arpC9.scheduler.clear_queue }, allOk) :=
  ⟨by decide, paused_drain_is_silent arpC9 [] allOk (by decide) (by decide)⟩

/-- C7: a job registered with positive period `P` and counter 0, ticked
exactly `P` times, contributes exactly one due-queue entry carrying its
payload and ends with its counter back at 0. -/
theorem job_period_single_fire {T : Type} (td P : Nat) (hP : 0 < P) (m : T) :
    Scheduler.update^[P] ⟨td, [⟨0, P, m⟩], []⟩ = ⟨td, [⟨0, P, m⟩], [m]⟩ := by
  obtain ⟨Q, rfl⟩ : ∃ Q, P = Q + 1 := ⟨P - 1, (Nat.succ_pred_eq_of_pos hP).symm⟩
  rw [Function.iterate_succ_apply',
    scheduler_single_job_iterate td (Q + 1) m Q (Nat.lt_succ_self Q)]
  simp [Scheduler.update, Job.advance, Job.fires]

/-- Witness for `job_period_single_fire` with period 4 and payload `3`. -/
theorem job_period_single_fire_witness :
    0 < 4 ∧
    Scheduler.update^[4] ⟨0, [⟨0, 4, (3 : Nat)⟩], []⟩ = ⟨0, [⟨0, 4, 3⟩], [3]⟩ :=
  ⟨by decide, job_period_single_fire 0 4 (by decide) 3⟩

/-- C8: two jobs with the same period and the same counter, registered in
order `x` then `y`, push their payloads in registration order `[x, y]` on
every tick on which both fire. -/
theorem equal_period_jobs_fire_in_order {T : Type} (td c P : Nat) (x y : T)
    (q : List T) (h : c + 1 = P) :
    Scheduler.update ⟨td, [⟨c, P, x⟩, ⟨c, P, y⟩], q⟩
      = ⟨td, [⟨0, P, x⟩, ⟨0, P, y⟩], q ++ [x, y]⟩ := by
  simp [Scheduler.update, Job.advance, Job.fires, h]

/-- Witness for `equal_period_jobs_fire_in_order` at counter 31 and period
32 (the `UpdateState`/`FlushNotes` pair `main` registers). -/
theorem equal_period_jobs_fire_in_order_witness :
    31 + 1 = 32 ∧
    Scheduler.update ⟨0, [⟨31, 32, Msg.UpdateState⟩, ⟨31, 32, Msg.FlushNotes⟩], []⟩
      = ⟨0, [⟨0, 32, Msg.UpdateState⟩, ⟨0, 32, Msg.FlushNotes⟩],
          [Msg.UpdateState, Msg.FlushNotes]⟩ :=
  ⟨by decide,
   equal_period_jobs_fire_in_order 0 31 32 Msg.UpdateState Msg.FlushNotes [] (by decide)⟩

/-- C10: for every grid event with note id at most 127 and page index at
most 3, the decoded coordinates keep the handler in bounds: the row is at
most 7 (so `7 - row` cannot underflow) and the column is either the octave
strip (8) or yields a pattern index `buffer_index*8 + column` below 32. -/
theorem grid_decode_in_bounds (note bi x y : Nat) (hn : note ≤ 127) (hb : bi ≤ 3)
    (h : find_lp_xy note = some (x, y)) :
    y ≤ 7 ∧ (x = 8 ∨ bi * 8 + x < 32) := by
  simp only [find_lp_xy, ge_iff_le] at h
  by_cases h16 : 16 ≤ note
  · rw [if_pos h16] at h
    by_cases h9 : note % 16 < 9
    · rw [if_pos h9] at h
      simp only [Option.some.injEq, Prod.mk.injEq] at h
      obtain ⟨hx, hy⟩ := h
      omega
    · rw [if_neg h9] at h
      exact absurd h (by simp)
  · rw [if_neg h16] at h
    by_cases h9 : note < 9
    · rw [if_pos h9] at h
      simp only [Option.some.injEq, Prod.mk.injEq] at h
      obtain ⟨hx, hy⟩ := h
      omega
    · rw [if_neg h9] at h
      exact absurd h (by simp)

/-- Witness for `grid_decode_in_bounds` at note id 50 on page 3. -/
theorem grid_decode_in_bounds_witness :
    ((50 : Nat) ≤ 127 ∧ (3 : Nat) ≤ 3 ∧ find_lp_xy 50 = some (2, 3)) ∧
    ((3 : Nat) ≤ 7 ∧ ((2 : Nat) = 8 ∨ 3 * 8 + 2 < 32)) :=
  ⟨⟨by decide, by decide, by decide⟩,
   grid_decode_in_bounds 50 3 2 3 (by decide) (by decide) (by decide)⟩
